import Mathlib

/-!
Verification of the rustdoc sidebar manifest
`src/doc/v0.1.1/chill/path/sidebar-items.js` of the chill-rs repository.

That file is a single JavaScript statement: a call to `initSidebarItems`
whose single argument is an object literal mapping the four category keys
"constant", "enum", "struct", "trait" to arrays of two-element string
arrays `[identifier, one-line description]`.

We embed the JavaScript file shallowly: `JsValue` models the JSON-like
literal values occurring in the file, `Stmt` models the top-level
statements a sidebar file could contain, and `fileStatements` is the
literal content of the file.  The per-category item lists
(`constantItems`, `enumItems`, `structItems`, `traitItems`) are
transcribed verbatim from the source and are the building blocks of the
object literal, so all claims can be settled on them.
-/

namespace Chill.Sidebar

/-- JSON-like literal values occurring in the sidebar manifest. -/
inductive JsValue where
  | str (s : String) : JsValue
  | arr (elems : List JsValue) : JsValue
  | obj (fields : List (String × JsValue)) : JsValue

/-- A top-level JavaScript statement of a sidebar file: either an
expression statement calling a named function on argument literals, a
function definition, or some other statement carrying logic or control
flow.  The actual file contains exactly one `exprCall`. -/
inductive Stmt where
  | exprCall (fn : String) (args : List JsValue) : Stmt
  | funcDef (name : String) : Stmt
  | otherLogic : Stmt

/-- Is the statement a plain expression-call statement? -/
def Stmt.isExprCall : Stmt → Bool
  | .exprCall _ _ => true
  | _ => false

/-- The "constant" category of the manifest, transcribed from the source. -/
def constantItems : List (String × String) :=
  [("DESIGN_PREFIX", ""), ("LOCAL_PREFIX", ""), ("VIEW_PREFIX", "")]

/-- The "enum" category of the manifest, transcribed from the source. -/
def enumItems : List (String × String) :=
  [("DocumentId", ""), ("DocumentIdRef", "")]

/-- The "struct" category of the manifest, transcribed from the source. -/
def structItems : List (String × String) :=
  [("AttachmentName", "A heap-allocated attachment  name, owned and managed internally."),
   ("AttachmentNameRef", "A reference to a attachment  name, owned elsewhere."),
   ("AttachmentPath", ""),
   ("AttachmentPathRef", ""),
   ("DatabaseName", "A heap-allocated database  name, owned and managed internally."),
   ("DatabaseNameRef", "A reference to a database  name, owned elsewhere."),
   ("DatabasePath", ""),
   ("DatabasePathRef", ""),
   ("DesignDocumentName", "A heap-allocated design document  name, owned and managed internally."),
   ("DesignDocumentNameRef", "A reference to a design document  name, owned elsewhere."),
   ("DesignDocumentPath", ""),
   ("DesignDocumentPathRef", ""),
   ("DocumentPath", ""),
   ("DocumentPathRef", ""),
   ("LocalDocumentName", "A heap-allocated local document  name, owned and managed internally."),
   ("LocalDocumentNameRef", "A reference to a local document  name, owned elsewhere."),
   ("NormalDocumentName", "A heap-allocated normal document  name, owned and managed internally."),
   ("NormalDocumentNameRef", "A reference to a normal document  name, owned elsewhere."),
   ("ViewName", "A heap-allocated view  name, owned and managed internally."),
   ("ViewNameRef", "A reference to a view  name, owned elsewhere."),
   ("ViewPath", ""),
   ("ViewPathRef", "")]

/-- The "trait" category of the manifest, transcribed from the source. -/
def traitItems : List (String × String) :=
  [("IntoAttachmentPath", ""), ("IntoDatabasePath", ""),
   ("IntoDesignDocumentPath", ""), ("IntoDocumentPath", ""),
   ("IntoViewPath", "")]

/-- Render a category's item list as the JavaScript array literal of
`[identifier, description]` pairs appearing in the source. -/
def itemsToJs (items : List (String × String)) : JsValue :=
  .arr (items.map fun p => .arr [.str p.1, .str p.2])

/-- The object literal passed to `initSidebarItems`, exactly as written
in the source file. -/
def manifest : List (String × JsValue) :=
  [("constant", itemsToJs constantItems),
   ("enum", itemsToJs enumItems),
   ("struct", itemsToJs structItems),
   ("trait", itemsToJs traitItems)]

/-- The complete list of top-level statements of the source file. -/
def fileStatements : List Stmt :=
  [.exprCall "initSidebarItems" [.obj manifest]]

/-- Is the value a two-element array of string literals? -/
def isStringPair : JsValue → Bool
  | .arr [.str _, .str _] => true
  | _ => false

/-- Is the value an array whose elements are all `[string, string]` pairs? -/
def isItemList : JsValue → Bool
  | .arr elems => elems.all isStringPair
  | _ => false

/-- The identifiers of the "struct" category, in source order. -/
def structNames : List String := structItems.map Prod.fst

/-- The identifiers of the "trait" category, in source order. -/
def traitNames : List String := traitItems.map Prod.fst

/-- The identifiers of the "constant" category, in source order. -/
def constantNames : List String := constantItems.map Prod.fst

/-- The identifiers of the "enum" category, in source order. -/
def enumNames : List String := enumItems.map Prod.fst

/-- All identifiers of the manifest, in source order. -/
def allNames : List String :=
  constantNames ++ enumNames ++ structNames ++ traitNames

/-- `strEndsWith s suf` holds when `suf` is a suffix of `s`. -/
def strEndsWith (s suf : String) : Bool :=
  suf.data.isSuffixOf s.data

/-- `strStartsWith s pre` holds when `pre` comes first in `s`. -/
def strStartsWith (s pre : String) : Bool :=
  pre.data.isPrefixOf s.data

/-- Remove the last `suf.length` characters of `s` (the inverse of
appending the suffix `suf`, when `strEndsWith s suf` holds). -/
def removeSuffix (s suf : String) : String :=
  String.mk (s.data.take (s.data.length - suf.data.length))

/-- The six resource kinds the spec names (database, local document,
normal document, design document, view, attachment), as CamelCase stems. -/
def resourceKinds : List String :=
  ["Attachment", "Database", "DesignDocument", "LocalDocument",
   "NormalDocument", "View"]

/-- The five kinds for which `Path`, `PathRef` and `Into*Path` items
exist in the manifest. -/
def pathKinds : List String :=
  ["Attachment", "Database", "DesignDocument", "Document", "View"]

/-- All type names of the manifest: the "enum" and "struct" identifiers. -/
def typeNames : List String := enumNames ++ structNames

/-- All `[identifier, description]` items of the manifest, in source order. -/
def allItems : List (String × String) :=
  constantItems ++ enumItems ++ structItems ++ traitItems

/-- Insert a space before every upper-case character and lower-case it. -/
def decamelChars : List Char → List Char
  | [] => []
  | c :: cs =>
    if c.isUpper then ' ' :: c.toLower :: decamelChars cs
    else c :: decamelChars cs

/-- The lower-case, space-separated phrase of a CamelCase resource-kind
stem: `"DesignDocument"` becomes `"design document"`. -/
def kindPhrase (stem : String) : String :=
  String.mk ((decamelChars stem.data).drop 1)

/-- Remove the four leading characters `"Into"` of a trait name. -/
def dropInto (s : String) : String := String.mk (s.data.drop 4)

/-- Lexicographic strict order on strings, by character lists. -/
def strLt (s t : String) : Bool := decide (s.data < t.data)

/-- Is the list of strings in strictly ascending lexicographic order? -/
def strictlyAscending : List String → Bool
  | [] => true
  | a :: rest =>
    (match rest with
     | [] => true
     | b :: _ => strLt a b) && strictlyAscending rest

/-- Claim C1: the file is exactly one call to `initSidebarItems` whose
single argument is the literal object mapping the four categories
"constant", "enum", "struct", "trait" to lists of
`[identifier, description]` string pairs; the file defines no functions
and contains no other logic or control flow. -/
theorem file_is_single_manifest_call :
    fileStatements = [Stmt.exprCall "initSidebarItems" [JsValue.obj manifest]] ∧
    fileStatements.length = 1 ∧
    (fileStatements.all fun s => s.isExprCall) = true ∧
    manifest.map Prod.fst = ["constant", "enum", "struct", "trait"] ∧
    (manifest.all fun kv => isItemList kv.2) = true :=
  ⟨rfl, rfl, rfl, rfl, rfl⟩

/-- Claim C4: the "constant" category lists exactly `DESIGN_PREFIX`,
`LOCAL_PREFIX` and `VIEW_PREFIX`, and nothing else. -/
theorem constant_category_exactly_three :
    constantNames = ["DESIGN_PREFIX", "LOCAL_PREFIX", "VIEW_PREFIX"] :=
  rfl

/-- Claim C5: the "enum" category lists exactly `DocumentId` and
`DocumentIdRef`, and nothing else. -/
theorem enum_category_exactly_two :
    enumNames = ["DocumentId", "DocumentIdRef"] :=
  rfl

/-- Claim C2, counterexample: the claim demands `<Kind>Path` and
`<Kind>PathRef` structs for every resource kind, but for the kind
`LocalDocument` the manifest lists neither `LocalDocumentPath` nor
`LocalDocumentPathRef` (only the undifferentiated `DocumentPath` /
`DocumentPathRef` exist). -/
theorem local_document_path_structs_missing :
    "LocalDocument" ∈ resourceKinds ∧
    ("LocalDocument" ++ "Path") ∉ structNames ∧
    ("LocalDocument" ++ "PathRef") ∉ structNames ∧
    "DocumentPath" ∈ structNames := by decide

/-- Claim C2, amended: for every resource kind the manifest lists both
`<Kind>Name` and `<Kind>NameRef`; `<Kind>Path` and `<Kind>PathRef`
structs exist for the kinds attachment, database, design document, view
and a single undifferentiated document kind, but not for the local and
normal document kinds. -/
theorem name_structs_for_all_kinds_path_structs_for_path_kinds :
    (∀ k ∈ resourceKinds,
      (k ++ "Name") ∈ structNames ∧ (k ++ "NameRef") ∈ structNames) ∧
    (∀ k ∈ pathKinds,
      (k ++ "Path") ∈ structNames ∧ (k ++ "PathRef") ∈ structNames) ∧
    ("LocalDocumentPath" ∉ structNames ∧ "NormalDocumentPath" ∉ structNames) := by
  decide

/-- Witness for the amended claim C2 at the kind `LocalDocument`. -/
theorem name_structs_for_all_kinds_path_structs_for_path_kinds_witness :
    ("LocalDocument" ++ "Name") ∈ structNames ∧
    ("LocalDocument" ++ "NameRef") ∈ structNames :=
  name_structs_for_all_kinds_path_structs_for_path_kinds.1
    "LocalDocument" (by decide)

/-- Claim C3: every non-`Ref` type name `T` of the "enum" and "struct"
categories has `T ++ "Ref"` listed as well, and every listed name ending
in `"Ref"` arises as `T ++ "Ref"` from a listed non-`Ref` name `T`. -/
theorem type_names_come_in_ref_pairs :
    (∀ n ∈ typeNames, strEndsWith n "Ref" = false → (n ++ "Ref") ∈ typeNames) ∧
    (∀ n ∈ typeNames, strEndsWith n "Ref" = true →
      removeSuffix n "Ref" ∈ typeNames ∧
      strEndsWith (removeSuffix n "Ref") "Ref" = false ∧
      removeSuffix n "Ref" ++ "Ref" = n) := by
  decide

/-- Witness for claim C3 at the enum name `DocumentId`. -/
theorem type_names_come_in_ref_pairs_witness :
    ("DocumentId" ++ "Ref") ∈ typeNames :=
  type_names_come_in_ref_pairs.1 "DocumentId" (by decide) (by decide)

/-- Claim C6: the "trait" category has exactly five entries and every
trait name starts with `"Into"` and ends with `"Path"`. -/
theorem trait_category_five_into_path_traits :
    traitNames.length = 5 ∧
    (traitNames.all fun n => strStartsWith n "Into" && strEndsWith n "Path")
      = true := by
  decide

/-- Claim C7: every struct whose name ends in `"Name"` is described as
"A heap-allocated `<kind>`  name, owned and managed internally." and
every struct whose name ends in `"NameRef"` as "A reference to a
`<kind>`  name, owned elsewhere.", where `<kind>` is the lower-case
phrase of the stem. -/
theorem name_struct_descriptions_follow_pattern :
    ∀ p ∈ structItems,
      (strEndsWith p.1 "NameRef" = true →
        p.2 = "A reference to a " ++ kindPhrase (removeSuffix p.1 "NameRef")
          ++ "  name, owned elsewhere.") ∧
      (strEndsWith p.1 "Name" = true →
        p.2 = "A heap-allocated " ++ kindPhrase (removeSuffix p.1 "Name")
          ++ "  name, owned and managed internally.") := by
  decide

/-- Witness for claim C7 at the struct `DesignDocumentNameRef`. -/
theorem name_struct_descriptions_follow_pattern_witness :
    ("DesignDocumentNameRef",
      "A reference to a design document  name, owned elsewhere.") ∈ structItems ∧
    "A reference to a design document  name, owned elsewhere." =
      "A reference to a "
        ++ kindPhrase (removeSuffix "DesignDocumentNameRef" "NameRef")
        ++ "  name, owned elsewhere." :=
  ⟨by decide,
    (name_struct_descriptions_follow_pattern
      ("DesignDocumentNameRef",
        "A reference to a design document  name, owned elsewhere.")
      (by decide)).1 (by decide)⟩

/-- Claim C8: within each of the four categories the identifiers appear
in strictly ascending lexicographic order, and no identifier occurs
twice anywhere in the manifest. -/
theorem categories_sorted_and_names_unique :
    strictlyAscending constantNames = true ∧
    strictlyAscending enumNames = true ∧
    strictlyAscending structNames = true ∧
    strictlyAscending traitNames = true ∧
    allNames.Nodup := by
  decide

/-- Claim C9: there are exactly twelve `*Name` / `*NameRef` structs, and
every other item of the manifest — constants, enums, `*Path` /
`*PathRef` structs and traits — has the empty string as description. -/
theorem non_name_items_have_empty_descriptions :
    (structItems.filter fun p =>
      strEndsWith p.1 "Name" || strEndsWith p.1 "NameRef").length = 12 ∧
    constantItems.length = 3 ∧ enumItems.length = 2 ∧
    (structItems.filter fun p =>
      strEndsWith p.1 "Path" || strEndsWith p.1 "PathRef").length = 10 ∧
    traitItems.length = 5 ∧
    (∀ p ∈ allItems, strEndsWith p.1 "Name" = false →
      strEndsWith p.1 "NameRef" = false → p.2 = "") := by
  decide

/-- Witness for claim C9 at the struct `AttachmentPath`. -/
theorem non_name_items_have_empty_descriptions_witness :
    (("AttachmentPath", "") ∈ allItems) ∧ ("AttachmentPath", "").2 = "" :=
  ⟨by decide,
    non_name_items_have_empty_descriptions.2.2.2.2.2
      ("AttachmentPath", "") (by decide) (by decide) (by decide)⟩

/-- Claim C10: the resource-kind stems of the five `Into<Kind>Path`
traits are exactly `Attachment`, `Database`, `DesignDocument`,
`Document`, `View`, the same stems as those of the `<Kind>Path` structs;
for each such kind the structs `<Kind>Path` and `<Kind>PathRef` and the
trait `Into<Kind>Path` are all listed. -/
theorem trait_kinds_equal_path_struct_kinds :
    (traitNames.map fun n => removeSuffix (dropInto n) "Path") = pathKinds ∧
    ((structItems.filter fun p => strEndsWith p.1 "Path").map fun p =>
      removeSuffix p.1 "Path") = pathKinds ∧
    (∀ k ∈ pathKinds,
      (k ++ "Path") ∈ structNames ∧ (k ++ "PathRef") ∈ structNames ∧
      ("Into" ++ k ++ "Path") ∈ traitNames) := by
  decide

/-- Witness for claim C10 at the kind `Document`. -/
theorem trait_kinds_equal_path_struct_kinds_witness :
    ("Document" ++ "Path") ∈ structNames ∧
    ("Document" ++ "PathRef") ∈ structNames ∧
    ("Into" ++ "Document" ++ "Path") ∈ traitNames :=
  trait_kinds_equal_path_struct_kinds.2.2 "Document" (by decide)

end Chill.Sidebar
